import Mathlib

/-!
# Verification of the BOM analyzer core

Shallow embedding of the item-number validation and issue-reconciliation
engine of `bom_analyzer.py` / `item_validator.py`:

* a regular-expression matcher (Brzozowski derivatives) for the six anchored
  patterns of the Pattern Registry, exactly as `re.match` uses them;
* `ItemValidator.validate_item_number`, `ItemValidator.suggest_correction`,
  `ItemValidator.load_reference_data` (file reading modelled as a list of
  parsed or malformed rows);
* `BOMAnalyzer.validate_item_numbers` over order items;
* the issue-reconciliation step of `BOMAnalyzer.analyze_order`, combining the
  locally detected issues with the outcome of the external analysis call.
-/

namespace BOM

/-! ## Regular expressions

The Python source checks item numbers with `re.match` against fully anchored
patterns (`^...$`).  We embed the regular-expression language needed by the
six registry patterns and decide matching by Brzozowski derivatives; an
anchored `re.match` succeeds exactly when the whole string matches. -/

inductive RE where
  | emp : RE
  | eps : RE
  | cls : (Char → Bool) → RE
  | cat : RE → RE → RE
  | alt : RE → RE → RE
  | star : RE → RE

def RE.nullable : RE → Bool
  | .emp => false
  | .eps => true
  | .cls _ => false
  | .cat a b => a.nullable && b.nullable
  | .alt a b => a.nullable || b.nullable
  | .star _ => true

def RE.deriv : RE → Char → RE
  | .emp, _ => .emp
  | .eps, _ => .emp
  | .cls p, c => if p c then .eps else .emp
  | .cat a b, c =>
      if a.nullable then .alt (.cat (a.deriv c) b) (b.deriv c)
      else .cat (a.deriv c) b
  | .alt a b, c => .alt (a.deriv c) (b.deriv c)
  | .star a, c => .cat (a.deriv c) (.star a)

def RE.matchList (r : RE) : List Char → Bool
  | [] => r.nullable
  | c :: cs => (r.deriv c).matchList cs

/-- Whole-string matching, the semantics of `re.match` on a `^...$` pattern. -/
def reMatch (r : RE) (s : String) : Bool := r.matchList s.toList

def RE.lit (c : Char) : RE := .cls (fun x => x == c)

def RE.strLit (s : String) : RE :=
  s.toList.foldr (fun c r => .cat (.lit c) r) .eps

/-- `r{n}`: exactly `n` repetitions. -/
def RE.rep : Nat → RE → RE
  | 0, _ => .eps
  | n + 1, r => .cat r (RE.rep n r)

/-- `r?`: zero or one occurrence. -/
def RE.opt (r : RE) : RE := .alt r .eps

/-- `r+`: one or more occurrences. -/
def RE.plus (r : RE) : RE := .cat r (.star r)

/-- `r{0,n}`: at most `n` repetitions. -/
def RE.repAtMost : Nat → RE → RE
  | 0, _ => .eps
  | n + 1, r => .alt .eps (.cat r (RE.repAtMost n r))

/-- `r{m,n}`: between `m` and `n` repetitions. -/
def RE.repRange (m n : Nat) (r : RE) : RE :=
  .cat (RE.rep m r) (RE.repAtMost (n - m) r)

/-- `\d` (the source's item numbers are ASCII). -/
def reDigit : RE := .cls Char.isDigit

/-- `[A-Z]` -/
def reUpper : RE := .cls (fun c => 'A' ≤ c && c ≤ 'Z')

/-- `[A-Z0-9]` -/
def reUpperOrDigit : RE := .cls (fun c => ('A' ≤ c && c ≤ 'Z') || c.isDigit)

/-- `[KM]` -/
def reKM : RE := .cls (fun c => c == 'K' || c == 'M')

/-- `[MF]` -/
def reMF : RE := .cls (fun c => c == 'M' || c == 'F')

/-! ## The Pattern Registry

`ItemValidator.__init__` builds `self.item_patterns`, a fixed mapping from
item-number prefix to a pattern string.  Each entry below carries the exact
pattern text (used verbatim in error messages) together with its embedding. -/

structure PatternRule where
  text : String
  re : RE

/-- `^PCB-[A-Z]\d{4}$` -/
def pcbRule : PatternRule :=
  ⟨"^PCB-[A-Z]\\d\x7b4\x7d$",
   .cat (RE.strLit "PCB-") (.cat reUpper (RE.rep 4 reDigit))⟩

/-- `^CAP-\d{4}-\d{1,3}V$` -/
def capRule : PatternRule :=
  ⟨"^CAP-\\d\x7b4\x7d-\\d\x7b1,3\x7dV$",
   .cat (RE.strLit "CAP-")
     (.cat (RE.rep 4 reDigit)
       (.cat (RE.lit '-') (.cat (RE.repRange 1 3 reDigit) (RE.lit 'V'))))⟩

/-- `^RES-\d+[KM]?-\d+\.\d+W$` -/
def resRule : PatternRule :=
  ⟨"^RES-\\d+[KM]?-\\d+\\.\\d+W$",
   .cat (RE.strLit "RES-")
     (.cat (RE.plus reDigit)
       (.cat (RE.opt reKM)
         (.cat (RE.lit '-')
           (.cat (RE.plus reDigit)
             (.cat (RE.lit '.') (.cat (RE.plus reDigit) (RE.lit 'W')))))))⟩

/-- `^IC-\d{4}[A-Z]?$` -/
def icRule : PatternRule :=
  ⟨"^IC-\\d\x7b4\x7d[A-Z]?$",
   .cat (RE.strLit "IC-") (.cat (RE.rep 4 reDigit) (RE.opt reUpper))⟩

/-- `^CONN-[A-Z0-9]+-[MF]$` -/
def connRule : PatternRule :=
  ⟨"^CONN-[A-Z0-9]+-[MF]$",
   .cat (RE.strLit "CONN-")
     (.cat (RE.plus reUpperOrDigit) (.cat (RE.lit '-') reMF))⟩

/-- `^DIODE-\d{1}N\d{4}$` -/
def diodeRule : PatternRule :=
  ⟨"^DIODE-\\d\x7b1\x7dN\\d\x7b4\x7d$",
   .cat (RE.strLit "DIODE-")
     (.cat (RE.rep 1 reDigit) (.cat (RE.lit 'N') (RE.rep 4 reDigit)))⟩

/-- `self.item_patterns`, in insertion order. -/
def item_patterns : List (String × PatternRule) :=
  [("PCB", pcbRule), ("CAP", capRule), ("RES", resRule),
   ("IC", icRule), ("CONN", connRule), ("DIODE", diodeRule)]

/-! ## The Reference Catalog and the Item Validator

`self.reference_items` is a Python dict keyed by item number; we embed it as
an association list in insertion order (Python dicts preserve insertion
order, and overwriting a key keeps its position). -/

structure RefInfo where
  description : String
  category : String
deriving DecidableEq, Repr

/-- The state of an `ItemValidator` instance: its loaded Reference Catalog.
The pattern registry is the same fixed table for every instance
(`item_patterns` above), so it is not a field. -/
structure ItemValidator where
  reference_items : List (String × RefInfo)
deriving DecidableEq, Repr

/-- `item_number.split('-')[0] if '-' in item_number else ""`. -/
def prefixOf (s : String) : String :=
  if s.toList.contains '-' then
    String.mk (s.toList.takeWhile (fun c => c != '-'))
  else ""

/-- Python dict update `d[k] = v`: overwrite in place if the key exists,
otherwise append at the end. -/
def dictInsert (d : List (String × RefInfo)) (k : String) (v : RefInfo) :
    List (String × RefInfo) :=
  if (d.lookup k).isSome then
    d.map (fun kv => if kv.1 == k then (k, v) else kv)
  else d ++ [(k, v)]

/-- Substring containment, `needle in hay` on Python strings, on char lists. -/
def containsSub (needle : List Char) : List Char → Bool
  | [] => needle.isEmpty
  | c :: t => needle.isPrefixOf (c :: t) || containsSub needle t

/-- `needle in hay` for Python strings. -/
def strContains (hay needle : String) : Bool :=
  containsSub needle.toList hay.toList

/-- Python's `s.endswith(suf)`: code-point suffix test. -/
def strEndsWith (s suf : String) : Bool :=
  suf.toList.isSuffixOf s.toList

/-- `ItemValidator.validate_item_number`. -/
def validate_item_number (v : ItemValidator) (item_number : String) :
    Bool × String :=
  if (v.reference_items.lookup item_number).isSome then (true, "")
  else
    let pfx := prefixOf item_number
    match item_patterns.lookup pfx with
    | some rule =>
        if reMatch rule.re item_number then (true, "")
        else (false, "Item number " ++ item_number ++
                     " does not match expected pattern " ++ rule.text)
    | none => (false, "Unknown item number prefix: " ++ pfx)

/-- `ItemValidator.suggest_correction`. -/
def suggest_correction (v : ItemValidator) (item_number : String) :
    Option String :=
  let pfx := prefixOf item_number
  if pfx == "CONN" && !(strEndsWith item_number "-M") &&
     !(strEndsWith item_number "-F") then
    some (item_number ++ "-F")
  else
    let similar_items :=
      (v.reference_items.map Prod.fst).filter (fun k => strContains k pfx)
    similar_items.head?

/-! ## Loading reference data

`ItemValidator.load_reference_data` reads a CSV with a `try` around the whole
loop: rows parsed before an error stay in `self.reference_items`, the caught
exception is reported as a printed message (never re-raised), and on success
the size of the catalog is printed.  File reading is modelled as a source
that is either unreadable or a list of rows, each row either parsed or
malformed (raising with a message when the loop reaches it). -/

inductive CsvRow where
  | good : String → String → String → CsvRow
  | bad : String → CsvRow
deriving DecidableEq, Repr

inductive LoadSource where
  | unreadable : String → LoadSource
  | rows : List CsvRow → LoadSource
deriving DecidableEq, Repr

/-- What `load_reference_data` reports: the success message with the catalog
size, or the caught-error message.  Either way the call returns normally. -/
inductive LoadOutcome where
  | loaded : Nat → LoadOutcome
  | failed : String → LoadOutcome
deriving DecidableEq, Repr

def loadRows (d : List (String × RefInfo)) :
    List CsvRow → List (String × RefInfo) × Option String
  | [] => (d, none)
  | .good item desc cat :: rest => loadRows (dictInsert d item ⟨desc, cat⟩) rest
  | .bad m :: _ => (d, some m)

/-- `ItemValidator.load_reference_data`, over the catalog it starts from. -/
def load_reference_data (d : List (String × RefInfo)) (src : LoadSource) :
    List (String × RefInfo) × LoadOutcome :=
  match src with
  | .unreadable m => (d, .failed ("Error loading reference data: " ++ m))
  | .rows rs =>
      match loadRows d rs with
      | (d2, none) => (d2, .loaded d2.length)
      | (d2, some m) => (d2, .failed ("Error loading reference data: " ++ m))

/-! ## Orders, issues, and `validate_item_numbers` -/

/-- An Issue record, the shape built by the analyzer. -/
structure Issue where
  issue_type : String
  location : String
  description : String
  severity : String
  recommendation : String
deriving DecidableEq, Repr

/-- An order line item.  `validate_item_numbers` reads only `line_id` and
`item_number` (via `item.get`, hence `Option`); the remaining fields
(description, quantity, unit_price, category) are never read by the core
validation and are omitted. -/
structure Item where
  line_id : Option String
  item_number : Option String
deriving DecidableEq, Repr

/-- The Issue built for an invalid item number inside the loop of
`BOMAnalyzer.validate_item_numbers`.  The suffix is guarded by Python's
truthiness test `if suggestion`, which is false both for `None` and for an
empty-string suggestion, so an empty string appends nothing. -/
def mkInvalidIssue (v : ItemValidator) (item : Item) (n msg : String) : Issue :=
  let suggestion := suggest_correction v n
  { issue_type := "Invalid Item Number"
    location := "Line ID " ++ item.line_id.getD "unknown"
    description := msg
    severity := "medium"
    recommendation := "Check and correct item number format" ++
      (match suggestion with
       | some s => if s == "" then "" else " (suggested: " ++ s ++ ")"
       | none => "") }

/-- `BOMAnalyzer.validate_item_numbers`: iterate the items in order,
`continue` on a falsy `item_number` (absent or empty string), and append one
Issue per invalid item number. -/
def validate_item_numbers (v : ItemValidator) : List Item → List Issue
  | [] => []
  | item :: rest =>
      match item.item_number with
      | none => validate_item_numbers v rest
      | some n =>
          if n == "" then validate_item_numbers v rest
          else
            match validate_item_number v n with
            | (true, _) => validate_item_numbers v rest
            | (false, msg) =>
                mkInvalidIssue v item n msg :: validate_item_numbers v rest

/-- The per-item contribution of `validate_item_numbers`: `none` when the
item is skipped or valid, the constructed Issue otherwise. -/
def issueForItem (v : ItemValidator) (item : Item) : Option Issue :=
  match item.item_number with
  | none => none
  | some n =>
      if n == "" then none
      else
        match validate_item_number v n with
        | (true, _) => none
        | (false, msg) => some (mkInvalidIssue v item n msg)

/-! ## The issue reconciliation step of `analyze_order` -/

/-- An Analysis Result, the shape the analyzer returns (and the shape of the
parsed external response).  No invariant is built into the type. -/
structure AnalysisResult where
  issues_found : Bool
  total_issues : Nat
  analysis : List Issue
deriving DecidableEq, Repr

/-- Outcome of the external analysis call: a parsed Analysis Result, or any
raised error with its message. -/
inductive ExternalOutcome where
  | ok : AnalysisResult → ExternalOutcome
  | error : String → ExternalOutcome
deriving DecidableEq, Repr

/-- Modelled from the spec: the external analysis collaborator, when it
succeeds, returns an Analysis Result as defined in the spec data model,
whose `total_issues` equals the length of `analysis` and whose
`issues_found` reflects whether any issue was reported.  The collaborator
itself (the remote model call) is outside the repository; only the shape of
a spec-conforming successful outcome with a given issue list is modelled. -/
def externalSuccess (issues : List Issue) : AnalysisResult :=
  ⟨!issues.isEmpty, issues.length, issues⟩

/-- The synthetic Issue built by `analyze_order` when the external call fails
and no local issues exist. -/
def apiErrorIssue (e : String) : Issue :=
  { issue_type := "API Error"
    location := "System"
    description := "Error calling OpenAI API: " ++ e
    severity := "high"
    recommendation := "Check API key and connectivity" }

/-- The reconciliation step of `BOMAnalyzer.analyze_order`: combine the local
`validation_issues` with the external outcome.  On success: if both sides
have issues, extend the external `analysis` with the local issues and
recompute `total_issues`; if only the local side has issues, rebuild the
result from them; otherwise return the external result unchanged.  On any
exception: return the local issues if any, else the synthetic API-error
result. -/
def reconcile_analysis (ext : ExternalOutcome)
    (validation_issues : List Issue) : AnalysisResult :=
  match ext with
  | .ok ai =>
      if !validation_issues.isEmpty && ai.issues_found then
        { ai with
          analysis := ai.analysis ++ validation_issues
          total_issues := (ai.analysis ++ validation_issues).length }
      else if !validation_issues.isEmpty then
        ⟨true, validation_issues.length, validation_issues⟩
      else ai
  | .error e =>
      if !validation_issues.isEmpty then
        ⟨true, validation_issues.length, validation_issues⟩
      else ⟨true, 1, [apiErrorIssue e]⟩

/-- The spec's Analysis Result invariant. -/
def resultInvariant (r : AnalysisResult) : Prop :=
  r.total_issues = r.analysis.length ∧
  r.issues_found = decide (0 < r.total_issues)

instance (r : AnalysisResult) : Decidable (resultInvariant r) := by
  unfold resultInvariant; infer_instance

/-! ## The sample order

The six items of `generate_sample_orders(include_issues=True)`, restricted
to the fields the validator reads. -/

def sample_items : List Item :=
  [⟨some "L001", some "PCB-X7700"⟩,
   ⟨some "L002", some "CAP-3300-10V"⟩,
   ⟨some "L003", some "RES-2K-0.25W"⟩,
   ⟨some "L004", some "IC-8085"⟩,
   ⟨some "L005", some "CONN-7777"⟩,
   ⟨some "L003", some "DIODE-1N4001"⟩]

/-- The validator of a `BOMAnalyzer` built without a reference file: empty
catalog, pattern-only validation. -/
def emptyValidator : ItemValidator := ⟨[]⟩

/-- The single Issue produced for the sample order's `CONN-7777` line. -/
def connIssue : Issue :=
  { issue_type := "Invalid Item Number"
    location := "Line ID L005"
    description :=
      "Item number CONN-7777 does not match expected pattern ^CONN-[A-Z0-9]+-[MF]$"
    severity := "medium"
    recommendation :=
      "Check and correct item number format (suggested: CONN-7777-F)" }

/-- A concrete external issue, for witnesses. -/
def issueE1 : Issue :=
  ⟨"Missing Field", "Line ID L004", "unit_price is missing", "high",
   "Add the unit_price"⟩

/-- A concrete local issue, for witnesses. -/
def issueL1 : Issue :=
  ⟨"Invalid Item Number", "Line ID L005", "bad item number", "medium",
   "Fix the item number"⟩

/-! ## Helper lemmas -/

lemma validate_item_numbers_cons (v : ItemValidator) (item : Item)
    (rest : List Item) :
    validate_item_numbers v (item :: rest) =
      (match issueForItem v item with
       | none => validate_item_numbers v rest
       | some i => i :: validate_item_numbers v rest) := by
  unfold issueForItem
  conv_lhs => unfold validate_item_numbers
  cases h : item.item_number with
  | none => rfl
  | some n =>
      by_cases he : n = ""
      · simp [he]
      · cases hv : validate_item_number v n with
        | mk b msg => cases b <;> simp [he, hv]

lemma validate_item_numbers_eq_filterMap (v : ItemValidator)
    (items : List Item) :
    validate_item_numbers v items = items.filterMap (issueForItem v) := by
  induction items with
  | nil => rfl
  | cons item rest ih =>
      rw [List.filterMap_cons, validate_item_numbers_cons, ih]
      cases issueForItem v item <;> rfl

lemma head?_filter_eq_find? {α : Type} (p : α → Bool) (l : List α) :
    (l.filter p).head? = l.find? p := by
  induction l with
  | nil => rfl
  | cons a t ih =>
      by_cases h : p a <;> simp [List.filter_cons, List.find?, h, ih]

lemma containsSub_append_self (pre needle : List Char) :
    containsSub needle (pre ++ needle) = true := by
  induction pre with
  | nil =>
      cases needle with
      | nil => rfl
      | cons c t =>
          simp [containsSub, List.isPrefixOf_iff_prefix]
  | cons c p ih => simp [containsSub, ih]

lemma strContains_append_self (a b : String) :
    strContains (a ++ b) b = true := by
  unfold strContains
  have h : (a ++ b).toList = a.toList ++ b.toList := by
    simp [String.toList]
  rw [h]
  exact containsSub_append_self a.toList b.toList

lemma lookup_map_overwrite (d : List (String × RefInfo)) (k k2 : String)
    (v : RefInfo) :
    ((d.map (fun kv => if kv.1 == k2 then (k2, v) else kv)).lookup k).isSome =
      (d.lookup k).isSome := by
  induction d with
  | nil => rfl
  | cons a t ih =>
      obtain ⟨ak, av⟩ := a
      by_cases hak : ak = k2
      · subst hak
        simp only [List.map_cons, beq_self_eq_true, if_true]
        rw [List.lookup_cons, List.lookup_cons]
        cases hk : k == ak
        · exact ih
        · rfl
      · have hb : (ak == k2) = false := by simpa using hak
        simp only [List.map_cons, hb, Bool.false_eq_true, if_false]
        rw [List.lookup_cons, List.lookup_cons]
        cases hk : k == ak
        · exact ih
        · rfl

lemma lookup_dictInsert_isSome (d : List (String × RefInfo))
    (k k2 : String) (v : RefInfo) :
    ((dictInsert d k2 v).lookup k).isSome = true ↔
      ((d.lookup k).isSome = true ∨ k = k2) := by
  unfold dictInsert
  by_cases h : (d.lookup k2).isSome = true
  · rw [if_pos h, lookup_map_overwrite]
    constructor
    · exact fun hs => Or.inl hs
    · rintro (hs | rfl)
      · exact hs
      · exact h
  · rw [if_neg h, List.lookup_append]
    cases hd : d.lookup k with
    | some b => simp
    | none =>
        rw [Option.none_or, List.lookup_cons]
        cases hk : k == k2 with
        | true =>
            simp only [beq_iff_eq] at hk
            simp [hk]
        | false =>
            have hk2 : ¬(k = k2) := by simpa using hk
            simp [hk2]

/-- The catalog after loading a list of parsed rows on top of `d`. -/
def goodsFold (d : List (String × RefInfo))
    (goods : List (String × String × String)) : List (String × RefInfo) :=
  goods.foldl (fun acc g => dictInsert acc g.1 ⟨g.2.1, g.2.2⟩) d

/-- A parsed CSV row, as fed to `loadRows`. -/
def goodRow (g : String × String × String) : CsvRow :=
  CsvRow.good g.1 g.2.1 g.2.2

lemma loadRows_goods_append (goods : List (String × String × String))
    (d : List (String × RefInfo)) (rows : List CsvRow) :
    loadRows d (goods.map goodRow ++ rows) = loadRows (goodsFold d goods) rows := by
  induction goods generalizing d with
  | nil => rfl
  | cons g t ih =>
      simp only [List.map_cons, List.cons_append, goodRow, loadRows,
        goodsFold, List.foldl_cons]
      exact ih (dictInsert d g.1 ⟨g.2.1, g.2.2⟩)

lemma goodsFold_lookup_isSome (goods : List (String × String × String))
    (d : List (String × RefInfo)) (k : String) :
    ((goodsFold d goods).lookup k).isSome ↔
      ((d.lookup k).isSome = true ∨ k ∈ goods.map (fun g => g.1)) := by
  induction goods generalizing d with
  | nil => simp [goodsFold]
  | cons g t ih =>
      simp only [goodsFold, List.foldl_cons, List.map_cons, List.mem_cons]
      rw [show (t.foldl (fun acc g => dictInsert acc g.1 ⟨g.2.1, g.2.2⟩)
            (dictInsert d g.1 ⟨g.2.1, g.2.2⟩)) =
          goodsFold (dictInsert d g.1 ⟨g.2.1, g.2.2⟩) t from rfl]
      rw [ih, lookup_dictInsert_isSome]
      tauto

/-! ## The claims -/

/-- Claim C1: for every combination of external-analysis outcome (success
with any issue list, or failure) and every local issue list (possibly
empty), the Analysis Result returned by the reconciliation step of
`analyze_order` satisfies `total_issues = length analysis` and
`issues_found = (total_issues > 0)`. -/
theorem claim1_reconciled_result_invariant :
    (∀ es ls : List Issue,
        resultInvariant (reconcile_analysis (.ok (externalSuccess es)) ls)) ∧
    (∀ (e : String) (ls : List Issue),
        resultInvariant (reconcile_analysis (.error e) ls)) := by
  constructor
  · intro es ls
    cases es with
    | nil =>
        cases ls with
        | nil => simp [reconcile_analysis, externalSuccess, resultInvariant]
        | cons b u => simp [reconcile_analysis, externalSuccess, resultInvariant]
    | cons a t =>
        cases ls with
        | nil => simp [reconcile_analysis, externalSuccess, resultInvariant]
        | cons b u =>
            simp [reconcile_analysis, externalSuccess, resultInvariant,
                  Nat.succ_add]
  · intro e ls
    cases ls with
    | nil => simp [reconcile_analysis, resultInvariant]
    | cons a t => simp [reconcile_analysis, resultInvariant]

/-- Claim C2: on external success, the reconciler merges per the three rules:
external reports issues and local issues exist, so the external `analysis`
is extended with the local issues (external first, each side's order kept)
and `total_issues` is recomputed; external reports no issues but local
issues exist, so the result is built solely from the local issues with
`issues_found = true`; both sides empty, so the external result is passed
through unchanged. -/
theorem claim2_success_merge_rules :
    (∀ (ai : AnalysisResult) (ls : List Issue),
        ai.issues_found = true → ls ≠ [] →
        reconcile_analysis (.ok ai) ls =
          { ai with
            analysis := ai.analysis ++ ls
            total_issues := (ai.analysis ++ ls).length }) ∧
    (∀ (ai : AnalysisResult) (ls : List Issue),
        ai.issues_found = false → ls ≠ [] →
        reconcile_analysis (.ok ai) ls = ⟨true, ls.length, ls⟩) ∧
    (∀ ai : AnalysisResult,
        ai.issues_found = false → ai.analysis = [] →
        reconcile_analysis (.ok ai) [] = ai) := by
  refine ⟨?_, ?_, ?_⟩
  · intro ai ls hf hls
    have h1 : ls.isEmpty = false := by
      cases ls with
      | nil => exact absurd rfl hls
      | cons a t => rfl
    simp [reconcile_analysis, h1, hf]
  · intro ai ls hf hls
    have h1 : ls.isEmpty = false := by
      cases ls with
      | nil => exact absurd rfl hls
      | cons a t => rfl
    simp [reconcile_analysis, h1, hf]
  · intro ai hf ha
    simp [reconcile_analysis]

/-- Witness for C2: external success with issues `[E1]` and local `[L1]`
merge into `{issues_found: true, total_issues: 2, analysis: [E1, L1]}`;
external success without issues and local `[L1]` rebuild from the local
issues; two empty sides pass the external result through. -/
theorem claim2_success_merge_rules_witness :
    reconcile_analysis (.ok (externalSuccess [issueE1])) [issueL1] =
      ⟨true, 2, [issueE1, issueL1]⟩ ∧
    reconcile_analysis (.ok (externalSuccess [])) [issueL1] =
      ⟨true, 1, [issueL1]⟩ ∧
    reconcile_analysis (.ok (externalSuccess [])) [] = externalSuccess [] := by
  refine ⟨?_, ?_, ?_⟩
  · exact (claim2_success_merge_rules.1 (externalSuccess [issueE1]) [issueL1]
      (by decide) (by decide)).trans (by decide)
  · exact (claim2_success_merge_rules.2.1 (externalSuccess []) [issueL1]
      (by decide) (by decide)).trans (by decide)
  · exact claim2_success_merge_rules.2.2 (externalSuccess [])
      (by decide) (by decide)

/-- Claim C3: on external failure, `analyze_order` never propagates the
failure: with local issues present it returns a result built solely from
them, otherwise a single synthetic `API Error` Issue of severity `high`
describing the failure. -/
theorem claim3_external_failure_rules :
    (∀ (e : String) (ls : List Issue), ls ≠ [] →
        reconcile_analysis (.error e) ls = ⟨true, ls.length, ls⟩) ∧
    (∀ e : String,
        reconcile_analysis (.error e) [] =
          ⟨true, 1,
           [{ issue_type := "API Error"
              location := "System"
              description := "Error calling OpenAI API: " ++ e
              severity := "high"
              recommendation := "Check API key and connectivity" }]⟩) := by
  constructor
  · intro e ls hls
    have h1 : ls.isEmpty = false := by
      cases ls with
      | nil => exact absurd rfl hls
      | cons a t => rfl
    simp [reconcile_analysis, h1]
  · intro e
    simp [reconcile_analysis, apiErrorIssue]

/-- Witness for C3: external failure with local `[I1, I2]` gives
`{issues_found: true, total_issues: 2, analysis: [I1, I2]}`; with no local
issues, the single synthetic API Error Issue. -/
theorem claim3_external_failure_rules_witness :
    reconcile_analysis (.error "boom") [issueE1, issueL1] =
      ⟨true, 2, [issueE1, issueL1]⟩ ∧
    reconcile_analysis (.error "boom") [] =
      ⟨true, 1,
       [⟨"API Error", "System", "Error calling OpenAI API: boom", "high",
         "Check API key and connectivity"⟩]⟩ := by
  constructor
  · exact (claim3_external_failure_rules.1 "boom" [issueE1, issueL1]
      (by decide)).trans (by decide)
  · exact (claim3_external_failure_rules.2 "boom").trans (by decide)

/-- Claim C4: every item number that is a key of the Reference Catalog
validates as `(valid, empty message)`, regardless of any pattern rule for
its prefix. -/
theorem claim4_catalog_hit_valid (v : ItemValidator) (n : String)
    (h : (v.reference_items.lookup n).isSome = true) :
    validate_item_number v n = (true, "") := by
  unfold validate_item_number
  rw [if_pos h]

/-- Witness for C4: `FOO-1` is in the catalog, its prefix `FOO` has no
pattern rule, and validation still returns `(true, "")`. -/
theorem claim4_catalog_hit_valid_witness :
    (((⟨[("FOO-1", ⟨"widget", "parts"⟩)]⟩ : ItemValidator)).reference_items.lookup
        "FOO-1").isSome = true ∧
    item_patterns.lookup (prefixOf "FOO-1") = none ∧
    validate_item_number ⟨[("FOO-1", ⟨"widget", "parts"⟩)]⟩ "FOO-1" =
      (true, "") :=
  ⟨by decide, rfl,
   claim4_catalog_hit_valid ⟨[("FOO-1", ⟨"widget", "parts"⟩)]⟩ "FOO-1"
     (by decide)⟩

/-- Claim C5: an item number absent from the Reference Catalog is never
silently accepted when its pattern check fails: with a registry rule for
its prefix and a failing match it is invalid with a message containing the
rule description; with no registry rule for its prefix it is invalid with a
message naming that prefix. -/
theorem claim5_noncatalog_invalid (v : ItemValidator) (n : String)
    (hcat : v.reference_items.lookup n = none) :
    (∀ rule : PatternRule,
        item_patterns.lookup (prefixOf n) = some rule →
        reMatch rule.re n = false →
        validate_item_number v n =
          (false, "Item number " ++ n ++
                  " does not match expected pattern " ++ rule.text) ∧
        strContains (validate_item_number v n).2 rule.text = true) ∧
    (item_patterns.lookup (prefixOf n) = none →
        validate_item_number v n =
          (false, "Unknown item number prefix: " ++ prefixOf n) ∧
        strContains (validate_item_number v n).2 (prefixOf n) = true) := by
  have hs : (v.reference_items.lookup n).isSome = false := by simp [hcat]
  constructor
  · intro rule hr hm
    have hv : validate_item_number v n =
        (false, "Item number " ++ n ++
                " does not match expected pattern " ++ rule.text) := by
      simp [validate_item_number, hs, hr, hm]
    refine ⟨hv, ?_⟩
    rw [hv]
    exact strContains_append_self _ _
  · intro hr
    have hv : validate_item_number v n =
        (false, "Unknown item number prefix: " ++ prefixOf n) := by
      simp [validate_item_number, hs, hr]
    refine ⟨hv, ?_⟩
    rw [hv]
    exact strContains_append_self _ _

/-- Witness for C5: with an empty catalog, `CONN-7777` (known prefix,
failing match) gets the pattern message, and `XYZ-1` (unknown prefix) gets
the unknown-prefix message naming `XYZ`. -/
theorem claim5_noncatalog_invalid_witness :
    (emptyValidator.reference_items.lookup "CONN-7777" = none ∧
     reMatch connRule.re "CONN-7777" = false ∧
     validate_item_number emptyValidator "CONN-7777" =
       (false,
        "Item number CONN-7777 does not match expected pattern ^CONN-[A-Z0-9]+-[MF]$")) ∧
    (item_patterns.lookup (prefixOf "XYZ-1") = none ∧
     validate_item_number emptyValidator "XYZ-1" =
       (false, "Unknown item number prefix: XYZ")) := by
  constructor
  · refine ⟨by decide, by decide, ?_⟩
    exact (((claim5_noncatalog_invalid emptyValidator "CONN-7777"
      (by decide)).1 connRule rfl (by decide)).1).trans (by decide)
  · refine ⟨rfl, ?_⟩
    exact (((claim5_noncatalog_invalid emptyValidator "XYZ-1"
      (by decide)).2 rfl).1).trans (by decide)

/-- Counterexample to claim C6 as stated: `" (suggested: X)"` is NOT
appended exactly when `suggest_correction` returns a suggestion `X`.  With
a catalog whose first key is the empty string (loadable from a reference
CSV row with an empty `item_number`) and the item number `"X"` (no
delimiter, so its prefix is `""`, unknown to the registry), the item is
invalid and `suggest_correction` returns the suggestion `""` — yet the
code's truthiness test treats `""` as falsy and appends nothing, so the
recommendation lacks the `" (suggested: )"` suffix the claim requires. -/
theorem claim6_suffix_truthiness_counterexample :
    suggest_correction ⟨[("", ⟨"empty key", "odd"⟩)]⟩ "X" = some "" ∧
    validate_item_numbers ⟨[("", ⟨"empty key", "odd"⟩)]⟩
        [⟨some "L001", some "X"⟩] =
      [{ issue_type := "Invalid Item Number"
         location := "Line ID L001"
         description := "Unknown item number prefix: "
         severity := "medium"
         recommendation := "Check and correct item number format" }] := by
  decide

/-- Claim C6, amended: `validate_item_numbers` returns issues in item order,
skipping items with no item number, and each invalid item yields exactly
one Issue with `issue_type = "Invalid Item Number"`, `location = "Line ID "`
followed by the line id (or `unknown`), the validator message as
description, `severity = "medium"`, and the fixed recommendation with
`" (suggested: X)"` appended exactly when `suggest_correction` returns a
non-empty suggestion `X` (a `None` or empty-string suggestion is falsy and
appends nothing); validating the sample order yields exactly one Issue, for
`CONN-7777`, whose recommendation contains `suggested: CONN-7777-F`. -/
theorem claim6_order_issue_list :
    (∀ (v : ItemValidator) (items : List Item),
        validate_item_numbers v items = items.filterMap (issueForItem v)) ∧
    (∀ (v : ItemValidator) (item : Item) (n : String),
        item.item_number = some n → n ≠ "" →
        (validate_item_number v n).1 = false →
        issueForItem v item = some
          { issue_type := "Invalid Item Number"
            location := "Line ID " ++ item.line_id.getD "unknown"
            description := (validate_item_number v n).2
            severity := "medium"
            recommendation := "Check and correct item number format" ++
              (match suggest_correction v n with
               | some s => if s == "" then "" else " (suggested: " ++ s ++ ")"
               | none => "") }) ∧
    validate_item_numbers emptyValidator sample_items = [connIssue] ∧
    strContains connIssue.recommendation "suggested: CONN-7777-F" = true := by
  refine ⟨validate_item_numbers_eq_filterMap, ?_, by decide, by decide⟩
  intro v item n hn hne hinv
  have he : (n == "") = false := by simpa using hne
  cases hv : validate_item_number v n with
  | mk b msg =>
      rw [hv] at hinv
      simp only at hinv
      subst hinv
      simp [issueForItem, hn, he, hv, mkInvalidIssue]

/-- Witness for C6: the sample order's `L005` item with number `CONN-7777`
contributes exactly the expected Issue. -/
theorem claim6_order_issue_list_witness :
    issueForItem emptyValidator ⟨some "L005", some "CONN-7777"⟩ =
      some connIssue := by
  have h := claim6_order_issue_list.2.1 emptyValidator
    ⟨some "L005", some "CONN-7777"⟩ "CONN-7777" rfl (by decide) (by decide)
  exact h.trans (by decide)

/-- Claim C7: an item number with prefix `CONN` and no trailing `-M` or `-F`
gets the suggestion of itself with `-F` appended. -/
theorem claim7_conn_suffix_suggestion (v : ItemValidator) (n : String)
    (hp : prefixOf n = "CONN")
    (hm : strEndsWith n "-M" = false)
    (hf : strEndsWith n "-F" = false) :
    suggest_correction v n = some (n ++ "-F") := by
  simp [suggest_correction, hp, hm, hf]

/-- Witness for C7: `suggest_correction("CONN-7777") = "CONN-7777-F"`. -/
theorem claim7_conn_suffix_suggestion_witness :
    prefixOf "CONN-7777" = "CONN" ∧
    strEndsWith "CONN-7777" "-M" = false ∧
    strEndsWith "CONN-7777" "-F" = false ∧
    suggest_correction emptyValidator "CONN-7777" = some "CONN-7777-F" := by
  refine ⟨by decide, by decide, by decide, ?_⟩
  exact (claim7_conn_suffix_suggestion emptyValidator "CONN-7777"
    (by decide) (by decide) (by decide)).trans (by decide)

/-- Claim C8: outside the CONN special case, `suggest_correction` returns
the first catalog key (in catalog iteration order) containing the item
number's prefix as a substring, and `none` when no catalog key contains
it. -/
theorem claim8_catalog_scan_suggestion (v : ItemValidator) (n : String)
    (h : ¬(prefixOf n = "CONN" ∧ strEndsWith n "-M" = false ∧
           strEndsWith n "-F" = false)) :
    suggest_correction v n =
      (v.reference_items.map Prod.fst).find?
        (fun k => strContains k (prefixOf n)) ∧
    ((∀ k ∈ v.reference_items.map Prod.fst,
        strContains k (prefixOf n) = false) →
      suggest_correction v n = none) := by
  have hcond : (prefixOf n == "CONN" && !(strEndsWith n "-M") &&
      !(strEndsWith n "-F")) = false := by
    by_cases h1 : prefixOf n = "CONN"
    · cases h2 : strEndsWith n "-M" with
      | false =>
          cases h3 : strEndsWith n "-F" with
          | false => exact absurd ⟨h1, h2, h3⟩ h
          | true => simp [h3]
      | true => simp [h2]
    · have hb : (prefixOf n == "CONN") = false := by simpa using h1
      simp [hb]
  have hmain : suggest_correction v n =
      (v.reference_items.map Prod.fst).find?
        (fun k => strContains k (prefixOf n)) := by
    simp only [suggest_correction, hcond, Bool.false_eq_true, if_false]
    exact head?_filter_eq_find? _ _
  refine ⟨hmain, fun hall => hmain.trans ?_⟩
  exact List.find?_eq_none.mpr (fun k hk => by simp [hall k hk])

/-- Witness for C8: with a two-entry catalog, the prefix `PCB` is matched by
the first key `PCB-X7700`, and the unknown prefix `XYZ` matches no key so
the suggestion is absent. -/
theorem claim8_catalog_scan_suggestion_witness :
    suggest_correction
        ⟨[("PCB-X7700", ⟨"Main Circuit Board", "Electronics"⟩),
          ("CAP-3300-10V", ⟨"10V Capacitor", "Components"⟩)]⟩ "PCB-9999" =
      some "PCB-X7700" ∧
    suggest_correction
        ⟨[("PCB-X7700", ⟨"Main Circuit Board", "Electronics"⟩),
          ("CAP-3300-10V", ⟨"10V Capacitor", "Components"⟩)]⟩ "XYZ-1" =
      none := by
  constructor
  · exact ((claim8_catalog_scan_suggestion
      ⟨[("PCB-X7700", ⟨"Main Circuit Board", "Electronics"⟩),
        ("CAP-3300-10V", ⟨"10V Capacitor", "Components"⟩)]⟩ "PCB-9999"
      (by decide)).1).trans (by decide)
  · exact (claim8_catalog_scan_suggestion
      ⟨[("PCB-X7700", ⟨"Main Circuit Board", "Electronics"⟩),
        ("CAP-3300-10V", ⟨"10V Capacitor", "Components"⟩)]⟩ "XYZ-1"
      (by decide)).2 (by decide)

/-- Claim C9: `load_reference_data` is fault tolerant: an unreadable source
leaves the catalog untouched and reports a caught error; a malformed row
stops the load, keeps every entry accepted before the error (and all
pre-existing entries) in the catalog, and reports a caught error instead of
raising; an all-good load reports the count of catalog entries. -/
theorem claim9_load_error_tolerance :
    (∀ (d : List (String × RefInfo)) (m : String),
        load_reference_data d (.unreadable m) =
          (d, .failed ("Error loading reference data: " ++ m))) ∧
    (∀ (d : List (String × RefInfo)) (goods : List (String × String × String))
        (m : String) (rest : List CsvRow),
        load_reference_data d
            (.rows (goods.map goodRow ++ CsvRow.bad m :: rest)) =
          (goodsFold d goods,
           .failed ("Error loading reference data: " ++ m))) ∧
    (∀ (d : List (String × RefInfo)) (goods : List (String × String × String))
        (m : String) (rest : List CsvRow) (k : String),
        ((d.lookup k).isSome = true ∨ k ∈ goods.map (fun g => g.1)) →
        (((load_reference_data d
              (.rows (goods.map goodRow ++ CsvRow.bad m :: rest))).1.lookup
            k).isSome = true)) ∧
    (∀ (d : List (String × RefInfo)) (goods : List (String × String × String)),
        load_reference_data d (.rows (goods.map goodRow)) =
          (goodsFold d goods, .loaded (goodsFold d goods).length)) := by
  have hbad : ∀ (d : List (String × RefInfo))
      (goods : List (String × String × String)) (m : String)
      (rest : List CsvRow),
      loadRows d (goods.map goodRow ++ CsvRow.bad m :: rest) =
        (goodsFold d goods, some m) := by
    intro d goods m rest
    rw [loadRows_goods_append]
    rfl
  have hgood : ∀ (d : List (String × RefInfo))
      (goods : List (String × String × String)),
      loadRows d (goods.map goodRow) = (goodsFold d goods, none) := by
    intro d goods
    have h := loadRows_goods_append goods d []
    rw [List.append_nil] at h
    exact h
  refine ⟨fun d m => rfl, ?_, ?_, ?_⟩
  · intro d goods m rest
    simp only [load_reference_data]
    rw [hbad]
  · intro d goods m rest k hk
    simp only [load_reference_data]
    rw [hbad]
    exact (goodsFold_lookup_isSome goods d k).mpr hk
  · intro d goods
    simp only [load_reference_data]
    rw [hgood]

/-- Witness for C9: loading one parsed row then a malformed one keeps the
parsed entry and reports the error; loading the parsed row alone reports
one entry; an unreadable source reports the error with an unchanged
catalog. -/
theorem claim9_load_error_tolerance_witness :
    load_reference_data []
        (.rows [goodRow ("PCB-X7700", "Main Circuit Board", "Electronics"),
                CsvRow.bad "bad row"]) =
      ([("PCB-X7700", ⟨"Main Circuit Board", "Electronics"⟩)],
       .failed "Error loading reference data: bad row") ∧
    (((load_reference_data []
          (.rows [goodRow ("PCB-X7700", "Main Circuit Board", "Electronics"),
                  CsvRow.bad "bad row"])).1.lookup "PCB-X7700").isSome
      = true) ∧
    load_reference_data []
        (.rows [goodRow ("PCB-X7700", "Main Circuit Board", "Electronics")]) =
      ([("PCB-X7700", ⟨"Main Circuit Board", "Electronics"⟩)], .loaded 1) ∧
    load_reference_data [] (.unreadable "missing file") =
      ([], .failed "Error loading reference data: missing file") := by
  refine ⟨?_, ?_, ?_, ?_⟩
  · exact (claim9_load_error_tolerance.2.1 []
      [("PCB-X7700", "Main Circuit Board", "Electronics")] "bad row"
      []).trans (by decide)
  · exact claim9_load_error_tolerance.2.2.1 []
      [("PCB-X7700", "Main Circuit Board", "Electronics")] "bad row" []
      "PCB-X7700" (Or.inr (by decide))
  · exact (claim9_load_error_tolerance.2.2.2 []
      [("PCB-X7700", "Main Circuit Board", "Electronics")]).trans (by decide)
  · exact (claim9_load_error_tolerance.1 [] "missing file").trans (by decide)

/-- Claim C10: an item whose `item_number` field is the empty string is
skipped by `validate_item_numbers` exactly as if the field were absent: no
Issue is produced for it, because the code tests the value's truthiness. -/
theorem claim10_empty_item_number_skipped (v : ItemValidator)
    (pre post : List Item) (item : Item)
    (h : item.item_number = some "") :
    validate_item_numbers v (pre ++ item :: post) =
      validate_item_numbers v (pre ++ post) ∧
    validate_item_numbers v (pre ++ item :: post) =
      validate_item_numbers v
        (pre ++ { item with item_number := none } :: post) := by
  have hi : issueForItem v item = none := by simp [issueForItem, h]
  have hi2 : issueForItem v { item with item_number := none } = none := by
    simp [issueForItem]
  constructor
  · rw [validate_item_numbers_eq_filterMap, validate_item_numbers_eq_filterMap,
        List.filterMap_append, List.filterMap_append, List.filterMap_cons, hi]
  · rw [validate_item_numbers_eq_filterMap, validate_item_numbers_eq_filterMap,
        List.filterMap_append, List.filterMap_append, List.filterMap_cons,
        List.filterMap_cons, hi, hi2]

/-- Witness for C10: an order with an empty-string item number in the middle
validates to the same issues as the order without that item, and as the
order with the field absent. -/
theorem claim10_empty_item_number_skipped_witness :
    validate_item_numbers emptyValidator
        [⟨some "L001", some "PCB-X7700"⟩, ⟨some "L002", some ""⟩,
         ⟨some "L003", some "XYZ-1"⟩] =
      validate_item_numbers emptyValidator
        [⟨some "L001", some "PCB-X7700"⟩, ⟨some "L003", some "XYZ-1"⟩] ∧
    validate_item_numbers emptyValidator
        [⟨some "L001", some "PCB-X7700"⟩, ⟨some "L002", some ""⟩,
         ⟨some "L003", some "XYZ-1"⟩] =
      validate_item_numbers emptyValidator
        [⟨some "L001", some "PCB-X7700"⟩, ⟨some "L002", none⟩,
         ⟨some "L003", some "XYZ-1"⟩] :=
  claim10_empty_item_number_skipped emptyValidator
    [⟨some "L001", some "PCB-X7700"⟩] [⟨some "L003", some "XYZ-1"⟩]
    ⟨some "L002", some ""⟩ rfl

end BOM
